import Mathlib

/-!
Verification of the Growatt solar power monitor (src/code.py) against its
natural-language specification.

The embedding models the core of the script: the `hash_password` transform,
the `GrowattApi.login` and `GrowattApi.get_plant_info` retry loops with their
exception dispatch, and the top-level orchestration loop exception handlers.
Network responses are supplied per attempt through explicit environment
records; side effects of the retry policy (time.sleep(20), wifi.reset(),
wifi.connect()) are recorded as an action trace.
-/

/-- Decoded JSON values, the result of json.loads on a response body.
Numbers are modelled as rationals (abstracting Python int/float values). -/
inductive Json where
  | null
  | bool (b : Bool)
  | num (q : Rat)
  | str (s : String)
  | arr (xs : List Json)
  | obj (kvs : List (String × Json))

/-- The Python exception classes that can arise on the modelled paths,
each carrying str(exception) (the message; empty when raised bare).
RuntimeError, ValueError, OutOfRetries come from the transport and parse
layers; WiFiNotConnected, NotLoggedIn, SerialLoginErrors are the classes
defined in the script; KeyError, IndexError, TypeError arise from subscript
and conversion operations. -/
inductive PyErr where
  | RuntimeError (msg : String)
  | ValueError (msg : String)
  | OutOfRetries (msg : String)
  | WiFiNotConnected (msg : String)
  | NotLoggedIn (msg : String)
  | SerialLoginErrors (msg : String)
  | KeyError (msg : String)
  | IndexError (msg : String)
  | TypeError (msg : String)
deriving DecidableEq

/-- str(error) as used by the retry dispatch in the script. -/
def msgOf : PyErr → String
  | .RuntimeError m => m
  | .ValueError m => m
  | .OutOfRetries m => m
  | .WiFiNotConnected m => m
  | .NotLoggedIn m => m
  | .SerialLoginErrors m => m
  | .KeyError m => m
  | .IndexError m => m
  | .TypeError m => m

/-- Whether an exception is caught by the retry clause
except(RuntimeError, ValueError, requests.OutOfRetries, WiFiNotConnected)
used identically in login (line 256) and get_plant_info (line 299). -/
def retryable : PyErr → Bool
  | .RuntimeError _ => true
  | .ValueError _ => true
  | .OutOfRetries _ => true
  | .WiFiNotConnected _ => true
  | _ => false

def isSerialLoginErrors : PyErr → Bool
  | .SerialLoginErrors _ => true
  | _ => false

def isNotLoggedIn : PyErr → Bool
  | .NotLoggedIn _ => true
  | _ => false

/-- Association-list lookup used by dictionary subscripts. -/
def lookupKey : List (String × Json) → String → Option Json
  | [], _ => none
  | (k, v) :: rest, key => if k = key then some v else lookupKey rest key

/-- Python d[key] on a decoded JSON value: dictionaries yield the value or
KeyError; subscripting a non-dictionary with a string key is a TypeError. -/
def pyGetItem (j : Json) (key : String) : Except PyErr Json :=
  match j with
  | .obj kvs =>
    match lookupKey kvs key with
    | some v => .ok v
    | none => .error (.KeyError key)
  | _ => .error (.TypeError "subscript with str key on non-dict")

/-- Python x[i] with an integer index: lists yield the element or IndexError;
strings yield the one-character string or IndexError; anything else is a
TypeError. -/
def pyIndex (j : Json) (i : Nat) : Except PyErr Json :=
  match j with
  | .arr xs =>
    match xs[i]? with
    | some v => .ok v
    | none => .error (.IndexError "list index out of range")
  | .str s =>
    match s.data[i]? with
    | some c => .ok (.str (String.mk [c]))
    | none => .error (.IndexError "string index out of range")
  | _ => .error (.TypeError "subscript with int index on non-sequence")

/-- Python truthiness of a decoded JSON value. -/
def pyTruthy : Json → Bool
  | .null => false
  | .bool b => b
  | .num q => q ≠ 0
  | .str s => s ≠ ""
  | .arr xs => !xs.isEmpty
  | .obj kvs => !kvs.isEmpty

/-- Numeric value of a list of decimal digit characters. -/
def digitsVal (cs : List Char) : Nat :=
  cs.foldl (fun a c => 10 * a + (c.toNat - 48)) 0

/-- Parse of an unsigned decimal literal: digits, optionally followed by a
dot and further digits, with at least one digit present overall. -/
def parseUnsignedDec (cs : List Char) : Option Rat :=
  let ip := cs.takeWhile Char.isDigit
  let rest := cs.dropWhile Char.isDigit
  match rest with
  | [] => if ip = [] then none else some (mkRat (digitsVal ip) 1)
  | '.' :: fr =>
    if fr.all Char.isDigit ∧ (ip ≠ [] ∨ fr ≠ []) then
      some (mkRat (digitsVal ip * 10 ^ fr.length + digitsVal fr) (10 ^ fr.length))
    else none
  | _ => none

/-- Python float(s) on a string, modelled for plain decimal literals with an
optional sign (the forms the power field can realistically take; exponent,
infinity and whitespace forms are outside the model). A failed parse is a
ValueError, exactly as float() raises. -/
def parseDecimal (s : String) : Option Rat :=
  match s.data with
  | '-' :: rest => (parseUnsignedDec rest).map (fun q => -q)
  | '+' :: rest => parseUnsignedDec rest
  | cs => parseUnsignedDec cs

/-- Python float(x) applied to a decoded JSON value: numbers pass through,
booleans coerce to 1 or 0, strings are parsed (ValueError when malformed),
None and containers are TypeErrors. -/
def pyFloat : Json → Except PyErr Rat
  | .num q => .ok q
  | .bool b => .ok (if b then 1 else 0)
  | .str s =>
    match parseDecimal s with
    | some q => .ok q
    | none => .error (.ValueError ("could not convert string to float: " ++ s))
  | .null => .error (.TypeError "float() argument must be a string or a number")
  | .arr _ => .error (.TypeError "float() argument must be a string or a number")
  | .obj _ => .error (.TypeError "float() argument must be a string or a number")

/-- Python int() applied to a float value: truncation toward zero
(the denominator of a Rat is positive, so T-division of the numerator by
the denominator truncates the quotient toward zero). -/
def ratTrunc (q : Rat) : Int :=
  q.num.tdiv q.den

example : ratTrunc (mkRat 27 10) = 2 := by decide
example : ratTrunc (mkRat (-27) 10) = -2 := by decide
example : ratTrunc (mkRat 29 10) = 2 := by decide

/-! ## GrowattApi state and request environments -/

/-- The mutable attributes of the GrowattApi instance that the claims
concern: plant_id, cookies and power (lines 204-206 of src/code.py, all
initially None). A stored plant_id is kept as the string the script would
later render with str(); a JSON null assigned to it is modelled as none,
matching Python None. -/
structure ApiState where
  plant_id : Option String
  cookies : Option String
  power : Option Int
deriving DecidableEq

/-- The initial GrowattApi state: plant_id, cookies, power all None. -/
def stNone : ApiState := { plant_id := none, cookies := none, power := none }

def server_url : String := "https://server-api.growatt.com/"

/-- GrowattApi.get_url. -/
def get_url (page : String) : String := server_url ++ page

/-- Python str() of the stored plant_id (str(None) is the string None). -/
def pyStrOpt : Option String → String
  | none => "None"
  | some s => s

/-- The polling URL built at lines 279-280:
"{0}?op=getAllDeviceList&plantId={1}&pageNum=1&pageSize=1".format(
   get_url(newTwoPlantAPI.do), str(plant_id)). -/
def pollUrl (st : ApiState) : String :=
  get_url "newTwoPlantAPI.do" ++ "?op=getAllDeviceList&plantId="
    ++ pyStrOpt st.plant_id ++ "&pageNum=1&pageSize=1"

/-- The observable behaviour of one login HTTP POST that returned a
response: the decoded body (json.loads result; a parse failure is the
ValueError message), and the set-cookie response header if present. -/
structure LoginResponse where
  body : Except String Json
  setCookie : Option String

/-- The world as one login attempt observes it: the wifi.esp.is_connected
probe, and the outcome of requests.post (either a raised transport
exception or a response). -/
structure LoginEnv where
  linkUp : Bool
  request : Except PyErr LoginResponse

/-- The observable behaviour of one poll HTTP GET that returned a response:
the HTTP status code and the decoded body. -/
structure PollResponse where
  status : Nat
  body : Except String Json

/-- The world as one poll attempt observes it. -/
structure PollEnv where
  linkUp : Bool
  request : Except PyErr PollResponse

/-- The Python object stored into self.plant_id from the login response
entry: JSON null becomes Python None; a string is stored as is. The other
scalar shapes never occur for a plantId; they are rendered through a fixed
textual form so the definition stays total. -/
def jsonToPlantId : Json → Option String
  | .null => none
  | .str s => some s
  | .bool b => some (if b then "True" else "False")
  | .num q => some (toString q.num)
  | .arr _ => some "<list>"
  | .obj _ => some "<dict>"

/-! ## Session Client: login (lines 220-268) -/

/-- Lines 251-253: self.cookies = response.headers[set-cookie]; a missing
header raises KeyError (not in the retry tuple). -/
def setCookieStep (st : ApiState) (resp : LoginResponse) :
    Except (PyErr × ApiState) ApiState :=
  match resp.setCookie with
  | none => .error (.KeyError "set-cookie", st)
  | some c => .ok { st with cookies := some c }

/-- Lines 247-253: after a successful authentication check, default
plant_id to data[data][0][plantId] when none is set, then capture the
cookie. Errors carry the GrowattApi state as already mutated. -/
def afterAuth (st : ApiState) (data : Json) (resp : LoginResponse) :
    Except (PyErr × ApiState) ApiState :=
  match st.plant_id with
  | some _ => setCookieStep st resp
  | none =>
    match pyGetItem data "data" with
    | .error e => .error (e, st)
    | .ok lst =>
      match pyIndex lst 0 with
      | .error e => .error (e, st)
      | .ok entry =>
        match pyGetItem entry "plantId" with
        | .error e => .error (e, st)
        | .ok pj => setCookieStep { st with plant_id := jsonToPlantId pj } resp

/-- The body of one login try (lines 226-254): link probe, POST, decode,
back lookup, success check (with the user id/rightlevel lookups of the
data.update call on the truthy branch), NotLoggedIn on a falsy success
flag, then plant_id resolution and cookie capture. -/
def loginAttempt (st : ApiState) (env : LoginEnv) :
    Except (PyErr × ApiState) ApiState :=
  if env.linkUp = false then .error (.WiFiNotConnected "Wifi not connected", st)
  else
    match env.request with
    | .error e => .error (e, st)
    | .ok resp =>
      match resp.body with
      | .error m => .error (.ValueError m, st)
      | .ok content =>
        match pyGetItem content "back" with
        | .error e => .error (e, st)
        | .ok data =>
          match pyGetItem data "success" with
          | .error e => .error (e, st)
          | .ok sv =>
            if pyTruthy sv then
              match pyGetItem data "user" with
              | .error e => .error (e, st)
              | .ok user =>
                match pyGetItem user "id" with
                | .error e => .error (e, st)
                | .ok _ =>
                  match pyGetItem user "rightlevel" with
                  | .error e => .error (e, st)
                  | .ok _ => afterAuth st data resp
            else .error (.NotLoggedIn "", st)

/-- Side effects of the retry policy, recorded as a trace, plus a marker
for the start of each numbered attempt. -/
inductive PolicyAct where
  | attempt (i : Nat)
  | sleep20
  | wifiReset
  | wifiConnect
deriving DecidableEq

/-- The except-branch dispatch duplicated verbatim at lines 262-268 and
306-312: compare str(error) against the two fixed strings and choose
time.sleep(20), wifi.reset() or wifi.connect(). -/
def retryAct (e : PyErr) : PolicyAct :=
  if msgOf e ≠ "WiFi not connected" then
    if msgOf e ≠ "Error response to command" then PolicyAct.sleep20
    else PolicyAct.wifiReset
  else PolicyAct.wifiConnect

/-- The login for-loop (for i in range(1, 3)), with fuel counting the
remaining iterations. On a retryable error with i >= 2 the loop raises
SerialLoginErrors; otherwise it dispatches a policy action and continues
with the state the failed attempt left behind. A non-retryable error
propagates at once. Exhausted fuel models the for-loop falling through
(the function then returns None with the state unchanged); the bound 2
makes that unreachable. -/
def loginLoop (envs : Nat → LoginEnv) (st : ApiState) (i fuel : Nat) :
    Except (PyErr × ApiState) ApiState × List PolicyAct :=
  match fuel with
  | 0 => (.ok st, [])
  | fuel' + 1 =>
    match loginAttempt st (envs i) with
    | .ok st' => (.ok st', [PolicyAct.attempt i])
    | .error (e, st') =>
      if retryable e then
        if 2 ≤ i then
          (.error (.SerialLoginErrors "Serial login errors. Let\x27s try something else!", st'),
            [PolicyAct.attempt i])
        else
          let next := loginLoop envs st' (i + 1) fuel'
          (next.1, PolicyAct.attempt i :: retryAct e :: next.2)
      else (.error (e, st'), [PolicyAct.attempt i])

/-- Line 222-224: an explicitly passed plant_id is stored before the loop. -/
def applyPlantArg (st : ApiState) : Option String → ApiState
  | none => st
  | some p => { st with plant_id := some p }

/-- GrowattApi.login (lines 220-268). The password hashing and POST body
are absorbed into the environment, which describes the response each
attempt observes. -/
def login (st : ApiState) (plantIdArg : Option String) (envs : Nat → LoginEnv) :
    Except (PyErr × ApiState) ApiState × List PolicyAct :=
  loginLoop envs (applyPlantArg st plantIdArg) 1 2

/-! ## Session Client: get_plant_info (lines 270-312) -/

/-- The body of one poll try (lines 272-297): link probe, GET on pollUrl,
status check (non-200 raises NotLoggedIn), decode, deviceList[0][power]
extraction, float then int conversion, and at last the assignment
self.power = int(float(current_reading)). -/
def pollAttempt (st : ApiState) (env : PollEnv) :
    Except (PyErr × ApiState) ApiState :=
  if env.linkUp = false then .error (.WiFiNotConnected "Wifi not connected", st)
  else
    match env.request with
    | .error e => .error (e, st)
    | .ok resp =>
      if resp.status ≠ 200 then .error (.NotLoggedIn "Apparently not logged in", st)
      else
        match resp.body with
        | .error m => .error (.ValueError m, st)
        | .ok data =>
          match pyGetItem data "deviceList" with
          | .error e => .error (e, st)
          | .ok dl =>
            match pyIndex dl 0 with
            | .error e => .error (e, st)
            | .ok d0 =>
              match pyGetItem d0 "power" with
              | .error e => .error (e, st)
              | .ok p =>
                match pyFloat p with
                | .error e => .error (e, st)
                | .ok q => .ok { st with power := some (ratTrunc q) }

/-- The get_plant_info for-loop (for i in range(1, 4)). On a retryable
error with i >= 3 it raises NotLoggedIn (message: Serial errors. Trying
login again.); otherwise the same policy dispatch as login. -/
def pollLoop (envs : Nat → PollEnv) (st : ApiState) (i fuel : Nat) :
    Except (PyErr × ApiState) ApiState × List PolicyAct :=
  match fuel with
  | 0 => (.ok st, [])
  | fuel' + 1 =>
    match pollAttempt st (envs i) with
    | .ok st' => (.ok st', [PolicyAct.attempt i])
    | .error (e, st') =>
      if retryable e then
        if 3 ≤ i then
          (.error (.NotLoggedIn "Serial errors. Trying login again.", st'),
            [PolicyAct.attempt i])
        else
          let next := pollLoop envs st' (i + 1) fuel'
          (next.1, PolicyAct.attempt i :: retryAct e :: next.2)
      else (.error (e, st'), [PolicyAct.attempt i])

/-- GrowattApi.get_plant_info (lines 270-312). -/
def get_plant_info (st : ApiState) (envs : Nat → PollEnv) :
    Except (PyErr × ApiState) ApiState × List PolicyAct :=
  pollLoop envs st 1 3

/-- The attempt numbers recorded in a trace, in order. -/
def attemptsOf (tr : List PolicyAct) : List Nat :=
  tr.filterMap (fun a => match a with | .attempt i => some i | _ => none)

/-! ## Orchestration loop exception routing (lines 320-363) -/

/-- The configuration flag at line 24. -/
def always_retry_after_any_exception : Bool := false

/-- What the main loop does with an exception that reaches it. -/
inductive LoopOutcome where
  | exitProcess (code : Nat)
  | resetThenLogin
  | relogin
deriving DecidableEq

/-- The outer exception handlers (lines 343-363), which receive exceptions
escaping api.login: NotLoggedIn exits with status 1; SerialLoginErrors
resets the link and re-enters the login loop; anything else hits the bare
except, which exits with status 1 unless the always-retry flag is set (in
which case it sleeps, resets the link and re-enters login). -/
def handleLoginError (e : PyErr) : LoopOutcome :=
  match e with
  | .NotLoggedIn _ => .exitProcess 1
  | .SerialLoginErrors _ => .resetThenLogin
  | _ => if always_retry_after_any_exception then .resetThenLogin else .exitProcess 1

/-- Routing of an exception escaping api.get_plant_info: the inner handler
(lines 338-342) catches NotLoggedIn and breaks back to login; every other
exception propagates to the outer handlers. -/
def handlePollError (e : PyErr) : LoopOutcome :=
  match e with
  | .NotLoggedIn _ => .relogin
  | e => handleLoginError e

/-- Line 327: display.update_display(api.power) runs only when
get_plant_info returned; an exception skips it, so no reading is forwarded
to the display on a failed poll. -/
def displayAfterPoll : Except (PyErr × ApiState) ApiState → Option (Option Int)
  | .ok st => some st.power
  | .error _ => none

/-! ## hash_password (lines 179-184) -/

/-- One iteration of the hash_password loop body: if the character at
index i is the digit 0, rebuild the string as s[0:i] + c + s[i+1:]. -/
def zeroStep (s : List Char) (i : Nat) : List Char :=
  if s[i]? = some '0' then s.take i ++ 'c' :: s.drop (i + 1) else s

/-- The indices visited by for i in range(0, n, 2). -/
def evenIdx (n : Nat) : List Nat :=
  (List.range n).filter (fun i => i % 2 = 0)

/-- The loop of hash_password applied to the hex digest. -/
def hashLoop (s : List Char) : List Char :=
  (evenIdx s.length).foldl zeroStep s

/-- hash_password (lines 179-184), parameterized by the external md5
hexdigest function from adafruit_hashlib (returning the digest as its
character list): hash, then replace the 0 digits at even offsets. Being a
Lean function, it is deterministic in the password by construction. -/
def hash_password (md5hex : String → List Char) (password : String) : List Char :=
  hashLoop (md5hex password)

/-- The transformation as the spec words it: every hex-digit 0 at an even
string offset is replaced with c, all other positions unchanged. The first
argument carries the offset of the head character. -/
def specZeroToC : Nat → List Char → List Char
  | _, [] => []
  | i, ch :: cs => (if i % 2 = 0 ∧ ch = '0' then 'c' else ch) :: specZeroToC (i + 1) cs

theorem length_zeroStep (s : List Char) (i : Nat) :
    (zeroStep s i).length = s.length := by
  unfold zeroStep
  split
  case isTrue h =>
    obtain ⟨hlt, -⟩ := List.getElem?_eq_some.mp h
    simp only [List.length_append, List.length_take, List.length_cons, List.length_drop]
    omega
  case isFalse h => rfl

theorem zeroStep_getElem_ne (s : List Char) (i j : Nat) (h : j ≠ i) :
    (zeroStep s i)[j]? = s[j]? := by
  unfold zeroStep
  split
  case isTrue hz =>
    obtain ⟨hlt, -⟩ := List.getElem?_eq_some.mp hz
    rcases Nat.lt_or_ge j i with hj | hj
    · rw [List.getElem?_append_left (by simp [List.length_take]; omega)]
      rw [List.getElem?_take, if_pos hj]
    · have hij : i < j := Nat.lt_of_le_of_ne hj (fun hh => h hh.symm)
      rw [List.getElem?_append_right (by simp [List.length_take]; omega)]
      have hlen : (s.take i).length = i := by simp [List.length_take]; omega
      rw [hlen, List.getElem?_cons, if_neg (by omega), List.getElem?_drop]
      congr 1
      omega
  case isFalse hz => rfl

theorem zeroStep_getElem_self (s : List Char) (i : Nat) :
    (zeroStep s i)[i]? = if s[i]? = some '0' then some 'c' else s[i]? := by
  unfold zeroStep
  split
  case isTrue hz =>
    obtain ⟨hlt, -⟩ := List.getElem?_eq_some.mp hz
    have hlen : (s.take i).length = i := by simp [List.length_take]; omega
    rw [List.getElem?_append_right hlen.le, hlen]
    simp
  case isFalse hz => rfl

theorem foldl_zeroStep_not_mem (L : List Nat) (s : List Char) (j : Nat) (h : j ∉ L) :
    (L.foldl zeroStep s)[j]? = s[j]? := by
  induction L generalizing s with
  | nil => rfl
  | cons a L' ih =>
    have hne : j ≠ a := fun hh => h (hh ▸ List.mem_cons_self a L')
    have hrest : j ∉ L' := fun hh => h (List.mem_cons_of_mem a hh)
    rw [List.foldl_cons, ih (zeroStep s a) hrest, zeroStep_getElem_ne s a j hne]

theorem foldl_zeroStep_mem (L : List Nat) (s : List Char) (j : Nat)
    (hnd : L.Nodup) (h : j ∈ L) :
    (L.foldl zeroStep s)[j]? = if s[j]? = some '0' then some 'c' else s[j]? := by
  induction L generalizing s with
  | nil => cases h
  | cons a L' ih =>
    rw [List.nodup_cons] at hnd
    rw [List.foldl_cons]
    rcases Decidable.em (j = a) with rfl | hne
    · rw [foldl_zeroStep_not_mem L' (zeroStep s j) j hnd.1, zeroStep_getElem_self]
    · have hmem : j ∈ L' := by
        rcases List.mem_cons.mp h with hh | hh
        · exact absurd hh hne
        · exact hh
      rw [ih (zeroStep s a) hnd.2 hmem, zeroStep_getElem_ne s a j hne]

theorem evenIdx_mem (n j : Nat) : j ∈ evenIdx n ↔ j < n ∧ j % 2 = 0 := by
  unfold evenIdx
  rw [List.mem_filter, List.mem_range]
  simp

theorem evenIdx_nodup (n : Nat) : (evenIdx n).Nodup :=
  (List.nodup_range n).filter _

theorem hashLoop_getElem (s : List Char) (j : Nat) :
    (hashLoop s)[j]? = if j % 2 = 0 ∧ s[j]? = some '0' then some 'c' else s[j]? := by
  unfold hashLoop
  rcases Decidable.em (j ∈ evenIdx s.length) with hmem | hmem
  · obtain ⟨hlt, hpar⟩ := (evenIdx_mem s.length j).mp hmem
    rw [foldl_zeroStep_mem _ s j (evenIdx_nodup s.length) hmem]
    by_cases hz : s[j]? = some '0'
    · rw [if_pos hz, if_pos ⟨hpar, hz⟩]
    · rw [if_neg hz, if_neg (fun hh => hz hh.2)]
  · rw [foldl_zeroStep_not_mem _ s j hmem]
    have : ¬(j % 2 = 0 ∧ s[j]? = some '0') := by
      rintro ⟨hpar, hz⟩
      obtain ⟨hlt, -⟩ := List.getElem?_eq_some.mp hz
      exact hmem ((evenIdx_mem s.length j).mpr ⟨hlt, hpar⟩)
    rw [if_neg this]

theorem specZeroToC_getElem (s : List Char) (k j : Nat) :
    (specZeroToC k s)[j]? =
      if (k + j) % 2 = 0 ∧ s[j]? = some '0' then some 'c' else s[j]? := by
  induction s generalizing k j with
  | nil => simp [specZeroToC]
  | cons ch cs ih =>
    cases j with
    | zero =>
      have l1 : (specZeroToC k (ch :: cs))[0]? =
          some (if k % 2 = 0 ∧ ch = '0' then 'c' else ch) := by
        simp [specZeroToC]
      have l2 : (ch :: cs)[0]? = some ch := by simp
      rw [l1, l2, Nat.add_zero]
      by_cases hpar : k % 2 = 0
      · by_cases hc : ch = '0'
        · simp [hpar, hc]
        · simp [hpar, hc]
      · simp [hpar]
    | succ j' =>
      have l1 : (specZeroToC k (ch :: cs))[j' + 1]? = (specZeroToC (k + 1) cs)[j']? := by
        simp [specZeroToC]
      have l2 : (ch :: cs)[j' + 1]? = cs[j']? := by simp
      rw [l1, l2, ih (k + 1) j']
      have h3 : k + 1 + j' = k + (j' + 1) := by omega
      rw [h3]

/-- C4. hash_password is a deterministic function of the password (it is a
pure Lean function of md5hex and the password), and its result is the md5
hex digest with every 0 digit at an even offset replaced by c and every
other position unchanged, which is what specZeroToC 0 computes. -/
theorem hash_password_even_zero_to_c (md5hex : String → List Char) (pw : String) :
    hash_password md5hex pw = specZeroToC 0 (md5hex pw) := by
  apply List.ext_getElem?
  intro n
  rw [hash_password, hashLoop_getElem, specZeroToC_getElem, Nat.zero_add]

example :
    hash_password (fun _ => String.toList "0a0b10c002") "pw" =
      String.toList "cacb10c0c2" := by decide

/-! ## Retry loop lemmas -/

theorem pollAttempt_error_state (st : ApiState) (env : PollEnv) (e : PyErr)
    (st' : ApiState) (h : pollAttempt st env = .error (e, st')) : st' = st := by
  unfold pollAttempt at h
  iterate 10 (all_goals try split at h)
  all_goals first
    | (simp only [Except.error.injEq, Prod.mk.injEq] at h; exact h.2.symm)
    | simp at h

theorem pollLoop_step (envs : Nat → PollEnv) (st : ApiState) (i fl : Nat) :
    pollLoop envs st i (fl + 1) =
      match pollAttempt st (envs i) with
      | .ok st' => (.ok st', [PolicyAct.attempt i])
      | .error (e, st') =>
        if retryable e then
          if 3 ≤ i then
            (.error (.NotLoggedIn "Serial errors. Trying login again.", st'),
              [PolicyAct.attempt i])
          else
            let next := pollLoop envs st' (i + 1) fl
            (next.1, PolicyAct.attempt i :: retryAct e :: next.2)
        else (.error (e, st'), [PolicyAct.attempt i]) := rfl

theorem pollLoop_error_state (envs : Nat → PollEnv) (fuel : Nat) :
    ∀ (st : ApiState) (i : Nat) (e : PyErr) (st' : ApiState) (tr : List PolicyAct),
      pollLoop envs st i fuel = (.error (e, st'), tr) → st' = st := by
  induction fuel with
  | zero =>
    intro st i e st' tr h
    simp only [pollLoop] at h
    injection h with h1 h2
    injection h1
  | succ fl ih =>
    intro st i e st' tr h
    rw [pollLoop_step] at h
    rcases ha : pollAttempt st (envs i) with hv | st1
    · obtain ⟨e0, st0⟩ := hv
      have hst0 : st0 = st := pollAttempt_error_state st (envs i) e0 st0 ha
      rw [ha] at h
      try simp only at h
      by_cases hr : retryable e0
      · rw [if_pos hr] at h
        by_cases hi : 3 ≤ i
        · rw [if_pos hi] at h
          injection h with h1 h2
          injection h1 with h3
          injection h3 with h4 h5
          rw [← h5, hst0]
        · rw [if_neg hi] at h
          try simp only at h
          injection h with h1 h2
          exact (ih st0 (i + 1) e st' (pollLoop envs st0 (i + 1) fl).2
            (by rw [← h1])).trans hst0
      · rw [if_neg hr] at h
        injection h with h1 h2
        injection h1 with h3
        injection h3 with h4 h5
        rw [← h5, hst0]
    · rw [ha] at h
      simp only at h
      injection h with h1 h2
      injection h1

instance {eps alpha : Type} [DecidableEq eps] [DecidableEq alpha] :
    DecidableEq (Except eps alpha) := fun a b =>
  match a, b with
  | .ok x, .ok y =>
    if h : x = y then .isTrue (by rw [h])
    else .isFalse (by intro hh; injection hh; contradiction)
  | .error x, .error y =>
    if h : x = y then .isTrue (by rw [h])
    else .isFalse (by intro hh; injection hh; contradiction)
  | .ok _, .error _ => .isFalse (by intro hh; injection hh)
  | .error _, .ok _ => .isFalse (by intro hh; injection hh)

/-! ## Claim theorems -/

/-- C10. Every failing run of get_plant_info leaves the stored power
unchanged (self.power is assigned only after the status check, the JSON
extraction and the numeric conversion all succeeded), and no reading is
forwarded to the display on a failure (update_display runs only after
get_plant_info returned). -/
theorem poll_failure_preserves_power
    (st : ApiState) (envs : Nat → PollEnv) (e : PyErr) (st' : ApiState)
    (h : (get_plant_info st envs).1 = .error (e, st')) :
    st'.power = st.power ∧ displayAfterPoll (get_plant_info st envs).1 = none := by
  have hp : get_plant_info st envs = (.error (e, st'), (get_plant_info st envs).2) := by
    rw [← h]
  have hst : st' = st := pollLoop_error_state envs 3 st 1 e st' _ hp
  subst hst
  refine ⟨rfl, ?_⟩
  rw [h]
  rfl

def stWit : ApiState := { plant_id := some "P", cookies := some "abc", power := some 500 }

def pollEnvBoom : PollEnv := { linkUp := true, request := .error (.RuntimeError "boom") }

theorem poll_failure_preserves_power_wit :
    (get_plant_info stWit (fun _ => pollEnvBoom)).1
      = .error (.NotLoggedIn "Serial errors. Trying login again.", stWit)
    ∧ (stWit.power = stWit.power
       ∧ displayAfterPoll (get_plant_info stWit (fun _ => pollEnvBoom)).1 = none) :=
  ⟨by decide,
   poll_failure_preserves_power stWit (fun _ => pollEnvBoom)
     (.NotLoggedIn "Serial errors. Trying login again.") stWit (by decide)⟩

/-- C7. A poll attempt that receives an HTTP status other than 200 makes
get_plant_info raise NotLoggedIn (the NotAuthenticated of the spec) at
once: no retry of the same session (the trace holds attempt 1 only), not
the serial-exhaustion error; and the orchestration loop routes that
exception back to login. -/
theorem poll_non200_notloggedin
    (st : ApiState) (envs : Nat → PollEnv) (resp : PollResponse)
    (henv : envs 1 = { linkUp := true, request := .ok resp })
    (hst : resp.status ≠ 200) :
    get_plant_info st envs
      = (.error (.NotLoggedIn "Apparently not logged in", st), [PolicyAct.attempt 1])
    ∧ handlePollError (.NotLoggedIn "Apparently not logged in") = .relogin := by
  have hatt : pollAttempt st (envs 1)
      = .error (.NotLoggedIn "Apparently not logged in", st) := by
    rw [henv]
    unfold pollAttempt
    simp [hst]
  refine ⟨?_, rfl⟩
  show pollLoop envs st 1 (2 + 1) = _
  rw [pollLoop_step, hatt]
  rfl

def pollResp500 : PollResponse := { status := 500, body := .error "no body" }

theorem poll_non200_notloggedin_wit :
    ((fun _ => ({ linkUp := true, request := .ok pollResp500 } : PollEnv)) 1
        = { linkUp := true, request := .ok pollResp500 }
      ∧ pollResp500.status ≠ 200)
    ∧ (get_plant_info stWit (fun _ => { linkUp := true, request := .ok pollResp500 })
        = (.error (.NotLoggedIn "Apparently not logged in", stWit), [PolicyAct.attempt 1])
      ∧ handlePollError (.NotLoggedIn "Apparently not logged in") = .relogin) :=
  ⟨⟨rfl, by decide⟩,
   poll_non200_notloggedin stWit _ pollResp500 rfl (by decide)⟩

theorem loginLoop_step (envs : Nat → LoginEnv) (st : ApiState) (i fl : Nat) :
    loginLoop envs st i (fl + 1) =
      match loginAttempt st (envs i) with
      | .ok st' => (.ok st', [PolicyAct.attempt i])
      | .error (e, st') =>
        if retryable e then
          if 2 ≤ i then
            (.error (.SerialLoginErrors "Serial login errors. Let\x27s try something else!", st'),
              [PolicyAct.attempt i])
          else
            let next := loginLoop envs st' (i + 1) fl
            (next.1, PolicyAct.attempt i :: retryAct e :: next.2)
        else (.error (e, st'), [PolicyAct.attempt i]) := rfl

theorem attemptsOf_cons_attempt (i : Nat) (tr : List PolicyAct) :
    attemptsOf (PolicyAct.attempt i :: tr) = i :: attemptsOf tr := rfl

theorem attemptsOf_cons_retryAct (e : PyErr) (tr : List PolicyAct) :
    attemptsOf (retryAct e :: tr) = attemptsOf tr := by
  unfold retryAct
  split
  · split
    · rfl
    · rfl
  · rfl

theorem pollLoop_snd_cons (envs : Nat → PollEnv) (st : ApiState) (i fl : Nat) :
    ∃ tr, (pollLoop envs st i (fl + 1)).2 = PolicyAct.attempt i :: tr := by
  rw [pollLoop_step]
  rcases ha : pollAttempt st (envs i) with ⟨e, st'⟩ | st'
  · by_cases hr : retryable e
    · by_cases hi : 3 ≤ i
      · exact ⟨[], by simp [hr, hi]⟩
      · exact ⟨retryAct e :: (pollLoop envs st' (i + 1) fl).2, by simp [hr, hi]⟩
    · exact ⟨[], by simp [hr]⟩
  · exact ⟨[], by simp⟩

/-- C1 (amended). After 3 consecutive transport-class failures,
get_plant_info raises NotLoggedIn (the NotAuthenticated of the spec, with
message Serial errors. Trying login again.) rather than the SerialFailure
exception, and no 4th attempt is made. -/
theorem get_plant_info_three_failures_notloggedin
    (st : ApiState) (envs : Nat → PollEnv) (e1 e2 e3 : PyErr)
    (h1 : pollAttempt st (envs 1) = .error (e1, st)) (hr1 : retryable e1 = true)
    (h2 : pollAttempt st (envs 2) = .error (e2, st)) (hr2 : retryable e2 = true)
    (h3 : pollAttempt st (envs 3) = .error (e3, st)) (hr3 : retryable e3 = true) :
    (get_plant_info st envs).1
      = .error (.NotLoggedIn "Serial errors. Trying login again.", st)
    ∧ attemptsOf (get_plant_info st envs).2 = [1, 2, 3] := by
  have s3 : pollLoop envs st 3 1
      = (.error (.NotLoggedIn "Serial errors. Trying login again.", st),
         [PolicyAct.attempt 3]) := by
    show pollLoop envs st 3 (0 + 1) = _
    rw [pollLoop_step, h3]
    simp [hr3]
  have s2 : pollLoop envs st 2 2
      = (.error (.NotLoggedIn "Serial errors. Trying login again.", st),
         PolicyAct.attempt 2 :: retryAct e2 :: [PolicyAct.attempt 3]) := by
    show pollLoop envs st 2 (1 + 1) = _
    rw [pollLoop_step, h2]
    simp [hr2, s3]
  have s1 : get_plant_info st envs
      = (.error (.NotLoggedIn "Serial errors. Trying login again.", st),
         PolicyAct.attempt 1 :: retryAct e1 ::
           (PolicyAct.attempt 2 :: retryAct e2 :: [PolicyAct.attempt 3])) := by
    show pollLoop envs st 1 (2 + 1) = _
    rw [pollLoop_step, h1]
    simp [hr1, s2]
  rw [s1]
  refine ⟨rfl, ?_⟩
  rw [attemptsOf_cons_attempt, attemptsOf_cons_retryAct,
    attemptsOf_cons_attempt, attemptsOf_cons_retryAct]
  rfl

theorem get_plant_info_three_failures_notloggedin_wit :
    (pollAttempt stNone pollEnvBoom = .error (.RuntimeError "boom", stNone)
      ∧ retryable (.RuntimeError "boom") = true)
    ∧ ((get_plant_info stNone (fun _ => pollEnvBoom)).1
        = .error (.NotLoggedIn "Serial errors. Trying login again.", stNone)
      ∧ attemptsOf (get_plant_info stNone (fun _ => pollEnvBoom)).2 = [1, 2, 3]) :=
  ⟨⟨by decide, by decide⟩,
   get_plant_info_three_failures_notloggedin stNone (fun _ => pollEnvBoom)
     (.RuntimeError "boom") (.RuntimeError "boom") (.RuntimeError "boom")
     (by decide) (by decide) (by decide) (by decide) (by decide) (by decide)⟩

/-- C1 counterexample: with every attempt failing on a transport error,
get_plant_info raises NotLoggedIn, not SerialLoginErrors — refuting the
claim that the exhaustion of the 3-attempt budget in poll raises
SerialFailure rather than NotAuthenticated. -/
theorem get_plant_info_exhaustion_cex :
    (get_plant_info stNone (fun _ => pollEnvBoom)).1
      = .error (.NotLoggedIn "Serial errors. Trying login again.", stNone)
    ∧ isSerialLoginErrors (.NotLoggedIn "Serial errors. Trying login again.") = false
    ∧ isNotLoggedIn (.NotLoggedIn "Serial errors. Trying login again.") = true := by
  decide

def loginEnvDown : LoginEnv := { linkUp := false, request := .error (.RuntimeError "unused") }

def pollEnvDown : PollEnv := { linkUp := false, request := .error (.RuntimeError "unused") }

/-- C2 (code bug evaluated at the failing input). With the link down, both
login and get_plant_info raise WiFiNotConnected with the message Wifi not
connected (lowercase f, lines 231 and 277), which the dispatch compares
against the string WiFi not connected (capital F, lines 262 and 306): the
strings never match, so the policy takes the 20-second sleep branch and
never invokes wifi.connect() — the connect branch is dead code. -/
theorem linkdown_sleeps_not_reconnect :
    ((login stNone none (fun _ => loginEnvDown)).2
        = [PolicyAct.attempt 1, PolicyAct.sleep20, PolicyAct.attempt 2]
      ∧ PolicyAct.wifiConnect ∉ (login stNone none (fun _ => loginEnvDown)).2)
    ∧ ((get_plant_info stNone (fun _ => pollEnvDown)).2
        = [PolicyAct.attempt 1, PolicyAct.sleep20, PolicyAct.attempt 2,
           PolicyAct.sleep20, PolicyAct.attempt 3]
      ∧ PolicyAct.wifiConnect ∉ (get_plant_info stNone (fun _ => pollEnvDown)).2) := by
  decide

theorem loginLoop_snd_i2 (envs : Nat → LoginEnv) (st : ApiState) :
    (loginLoop envs st 2 1).2 = [PolicyAct.attempt 2] := by
  show (loginLoop envs st 2 (0 + 1)).2 = _
  rw [loginLoop_step]
  rcases ha : loginAttempt st (envs 2) with ⟨e, st'⟩ | st'
  · by_cases hr : retryable e
    · simp [hr]
    · simp [hr]
  · simp

/-- C3 (amended). A transport/parse error whose message is neither WiFi
not connected nor Error response to command, observed while attempts
remain, makes both login and poll wait the fixed 20-second delay as the
single policy action and then retry the same operation; an error with the
message Error response to command instead triggers wifi.reset() before
the retry (see the counterexample theorem). -/
theorem transport_error_dispatch
    (st : ApiState) (arg : Option String)
    (envsL : Nat → LoginEnv) (envsP : Nat → PollEnv) (eL eP : PyErr)
    (stL : ApiState)
    (hL : loginAttempt (applyPlantArg st arg) (envsL 1) = .error (eL, stL))
    (hrL : retryable eL = true)
    (hmL1 : msgOf eL ≠ "WiFi not connected")
    (hmL2 : msgOf eL ≠ "Error response to command")
    (hP : pollAttempt st (envsP 1) = .error (eP, st))
    (hrP : retryable eP = true)
    (hmP1 : msgOf eP ≠ "WiFi not connected")
    (hmP2 : msgOf eP ≠ "Error response to command") :
    (login st arg envsL).2
      = [PolicyAct.attempt 1, PolicyAct.sleep20, PolicyAct.attempt 2]
    ∧ ∃ tr, (get_plant_info st envsP).2
        = PolicyAct.attempt 1 :: PolicyAct.sleep20 :: PolicyAct.attempt 2 :: tr := by
  have hactL : retryAct eL = PolicyAct.sleep20 := by
    unfold retryAct
    rw [if_pos hmL1, if_pos hmL2]
  have hactP : retryAct eP = PolicyAct.sleep20 := by
    unfold retryAct
    rw [if_pos hmP1, if_pos hmP2]
  constructor
  · show (loginLoop envsL (applyPlantArg st arg) 1 (1 + 1)).2 = _
    rw [loginLoop_step, hL]
    simp [hrL, hactL, loginLoop_snd_i2]
  · obtain ⟨tr2, htr2⟩ := pollLoop_snd_cons envsP st 2 1
    refine ⟨tr2, ?_⟩
    show (pollLoop envsP st 1 (2 + 1)).2 = _
    rw [pollLoop_step, hP]
    simp [hrP, hactP]
    exact htr2

def loginEnvBoom : LoginEnv := { linkUp := true, request := .error (.RuntimeError "boom") }

theorem transport_error_dispatch_wit :
    (loginAttempt (applyPlantArg stNone none) loginEnvBoom
        = .error (.RuntimeError "boom", stNone)
      ∧ retryable (.RuntimeError "boom") = true
      ∧ msgOf (.RuntimeError "boom") ≠ "WiFi not connected"
      ∧ msgOf (.RuntimeError "boom") ≠ "Error response to command"
      ∧ pollAttempt stNone pollEnvBoom = .error (.RuntimeError "boom", stNone))
    ∧ ((login stNone none (fun _ => loginEnvBoom)).2
        = [PolicyAct.attempt 1, PolicyAct.sleep20, PolicyAct.attempt 2]
      ∧ ∃ tr, (get_plant_info stNone (fun _ => pollEnvBoom)).2
          = PolicyAct.attempt 1 :: PolicyAct.sleep20 :: PolicyAct.attempt 2 :: tr) :=
  ⟨⟨by decide, by decide, by decide, by decide, by decide⟩,
   transport_error_dispatch stNone none (fun _ => loginEnvBoom) (fun _ => pollEnvBoom)
     (.RuntimeError "boom") (.RuntimeError "boom") stNone
     (by decide) (by decide) (by decide) (by decide)
     (by decide) (by decide) (by decide) (by decide)⟩

def pollEnvCmd : PollEnv :=
  { linkUp := true, request := .error (.RuntimeError "Error response to command") }

/-- C3 counterexample: a transport error carrying the message Error
response to command, with attempts remaining, makes the policy reset the
link (wifi.reset()) instead of waiting the fixed 20-second delay —
refuting the claim that every transport/parse error with attempts
remaining waits 20 seconds and performs no other escalation action. -/
theorem transport_error_reset_cex :
    retryable (.RuntimeError "Error response to command") = true
    ∧ (get_plant_info stNone (fun _ => pollEnvCmd)).2
        = [PolicyAct.attempt 1, PolicyAct.wifiReset, PolicyAct.attempt 2,
           PolicyAct.wifiReset, PolicyAct.attempt 3]
    ∧ PolicyAct.sleep20 ∉ (get_plant_info stNone (fun _ => pollEnvCmd)).2 := by
  decide

/-- C5. A login attempt whose response carries a falsy service-level
success flag raises NotLoggedIn (raised bare, so its message is empty)
with zero retries — the trace holds attempt 1 only — and the orchestration
loop routes a NotLoggedIn escaping login to a process exit with status 1
(lines 343-346), not back into the login loop. -/
theorem login_auth_reject_no_retry
    (st : ApiState) (arg : Option String) (envs : Nat → LoginEnv)
    (resp : LoginResponse) (content back sv : Json)
    (henv : envs 1 = { linkUp := true, request := .ok resp })
    (hbody : resp.body = .ok content)
    (hback : pyGetItem content "back" = .ok back)
    (hsv : pyGetItem back "success" = .ok sv)
    (hfalse : pyTruthy sv = false) :
    login st arg envs
      = (.error (.NotLoggedIn "", applyPlantArg st arg), [PolicyAct.attempt 1])
    ∧ handleLoginError (.NotLoggedIn "") = .exitProcess 1 := by
  have hatt : loginAttempt (applyPlantArg st arg) (envs 1)
      = .error (.NotLoggedIn "", applyPlantArg st arg) := by
    rw [henv]
    unfold loginAttempt
    simp [hbody, hback, hsv, hfalse]
  refine ⟨?_, rfl⟩
  show loginLoop envs (applyPlantArg st arg) 1 (1 + 1) = _
  rw [loginLoop_step, hatt]
  rfl

def loginRespReject : LoginResponse :=
  { body := .ok (Json.obj [("back", Json.obj [("success", Json.bool false)])]),
    setCookie := some "SESSION=t" }

theorem login_auth_reject_no_retry_wit :
    ((fun _ => ({ linkUp := true, request := .ok loginRespReject } : LoginEnv)) 1
        = { linkUp := true, request := .ok loginRespReject }
      ∧ pyTruthy (Json.bool false) = false)
    ∧ (login stNone none (fun _ => { linkUp := true, request := .ok loginRespReject })
        = (.error (.NotLoggedIn "", applyPlantArg stNone none), [PolicyAct.attempt 1])
      ∧ handleLoginError (.NotLoggedIn "") = .exitProcess 1) :=
  ⟨⟨rfl, by decide⟩,
   login_auth_reject_no_retry stNone none _ loginRespReject
     (Json.obj [("back", Json.obj [("success", Json.bool false)])])
     (Json.obj [("success", Json.bool false)]) (Json.bool false)
     rfl rfl rfl rfl (by decide)⟩

/-- C6. Two consecutive transport-class failures make login raise
SerialLoginErrors (the SerialFailure of the spec) with no 3rd attempt
(the trace holds attempts 1 and 2 only), and the orchestration loop
responds to a SerialLoginErrors escaping login by resetting the link and
re-entering login (lines 347-352). -/
theorem login_two_failures_serialerrors
    (st : ApiState) (arg : Option String) (envs : Nat → LoginEnv)
    (e1 e2 : PyErr) (st1 st2 : ApiState)
    (h1 : loginAttempt (applyPlantArg st arg) (envs 1) = .error (e1, st1))
    (hr1 : retryable e1 = true)
    (h2 : loginAttempt st1 (envs 2) = .error (e2, st2))
    (hr2 : retryable e2 = true) :
    (login st arg envs).1
      = .error (.SerialLoginErrors "Serial login errors. Let\x27s try something else!", st2)
    ∧ attemptsOf (login st arg envs).2 = [1, 2]
    ∧ handleLoginError
        (.SerialLoginErrors "Serial login errors. Let\x27s try something else!")
      = .resetThenLogin := by
  have s2 : loginLoop envs st1 2 1
      = (.error (.SerialLoginErrors "Serial login errors. Let\x27s try something else!", st2),
         [PolicyAct.attempt 2]) := by
    show loginLoop envs st1 2 (0 + 1) = _
    rw [loginLoop_step, h2]
    simp [hr2]
  have s1 : login st arg envs
      = (.error (.SerialLoginErrors "Serial login errors. Let\x27s try something else!", st2),
         PolicyAct.attempt 1 :: retryAct e1 :: [PolicyAct.attempt 2]) := by
    show loginLoop envs (applyPlantArg st arg) 1 (1 + 1) = _
    rw [loginLoop_step, h1]
    simp [hr1, s2]
  rw [s1]
  refine ⟨rfl, ?_, rfl⟩
  rw [attemptsOf_cons_attempt, attemptsOf_cons_retryAct]
  rfl

theorem login_two_failures_serialerrors_wit :
    (loginAttempt (applyPlantArg stNone none) loginEnvBoom
        = .error (.RuntimeError "boom", stNone)
      ∧ retryable (.RuntimeError "boom") = true)
    ∧ ((login stNone none (fun _ => loginEnvBoom)).1
        = .error (.SerialLoginErrors "Serial login errors. Let\x27s try something else!", stNone)
      ∧ attemptsOf (login stNone none (fun _ => loginEnvBoom)).2 = [1, 2]
      ∧ handleLoginError
          (.SerialLoginErrors "Serial login errors. Let\x27s try something else!")
        = .resetThenLogin) :=
  ⟨⟨by decide, by decide⟩,
   login_two_failures_serialerrors stNone none (fun _ => loginEnvBoom)
     (.RuntimeError "boom") (.RuntimeError "boom") stNone stNone
     (by decide) (by decide) (by decide) (by decide)⟩

/-- C8 (amended). For a poll attempt that reaches the power field: when
the field converts to a float value q, the stored power is exactly the
truncation of q toward zero (ratTrunc, neither rounding to nearest nor
ceiling); a malformed numeric field raises ValueError, which is in the
retry class; but a missing power key raises KeyError, which is NOT in the
retry class (it escapes the retry policy as an unclassified error). -/
theorem poll_power_truncation_and_errors
    (st : ApiState) (env : PollEnv) (data dl d0 : Json)
    (hlink : env.linkUp = true)
    (hreq : env.request = .ok { status := 200, body := .ok data })
    (hdl : pyGetItem data "deviceList" = .ok dl)
    (hd0 : pyIndex dl 0 = .ok d0) :
    (∀ p q, pyGetItem d0 "power" = .ok p → pyFloat p = .ok q →
        pollAttempt st env = .ok { st with power := some (ratTrunc q) })
    ∧ (∀ p m, pyGetItem d0 "power" = .ok p → pyFloat p = .error (.ValueError m) →
        pollAttempt st env = .error (.ValueError m, st)
          ∧ retryable (.ValueError m) = true)
    ∧ (pyGetItem d0 "power" = .error (.KeyError "power") →
        pollAttempt st env = .error (.KeyError "power", st)
          ∧ retryable (.KeyError "power") = false) := by
  refine ⟨?_, ?_, ?_⟩
  · intro p q hp hq
    unfold pollAttempt
    simp [hlink, hreq, hdl, hd0, hp, hq]
  · intro p m hp hq
    unfold pollAttempt
    simp [hlink, hreq, hdl, hd0, hp, hq, retryable]
  · intro hp
    unfold pollAttempt
    simp [hlink, hreq, hdl, hd0, hp, retryable]

def devListFrac : Json := Json.arr [Json.obj [("power", Json.num (mkRat 109 10))]]

def pollEnvFrac : PollEnv :=
  { linkUp := true,
    request := .ok { status := 200, body := .ok (Json.obj [("deviceList", devListFrac)]) } }

theorem poll_power_truncation_and_errors_wit :
    (pollEnvFrac.linkUp = true
      ∧ pyIndex devListFrac 0 = .ok (Json.obj [("power", Json.num (mkRat 109 10))])
      ∧ ratTrunc (mkRat 109 10) = 10)
    ∧ pollAttempt stNone pollEnvFrac
        = .ok { stNone with power := some (ratTrunc (mkRat 109 10)) } :=
  ⟨⟨rfl, rfl, by decide⟩,
   (poll_power_truncation_and_errors stNone pollEnvFrac
       (Json.obj [("deviceList", devListFrac)]) devListFrac
       (Json.obj [("power", Json.num (mkRat 109 10))])
       rfl rfl rfl rfl).1
     (Json.num (mkRat 109 10)) (mkRat 109 10) rfl rfl⟩

def pollRespNoPower : PollResponse :=
  { status := 200,
    body := .ok (Json.obj [("deviceList", Json.arr [Json.obj [("watts", Json.num 5)]])]) }

/-- C8 counterexample: a well-formed 200 response whose first device entry
has no power key makes the poll attempt raise KeyError, which is not in
the retry class — the orchestration loop routes it through the bare
except and exits the process — refuting the claim that any malformed OR
MISSING power field raises a retryable transport-class error. -/
theorem poll_missing_power_keyerror_cex :
    pollAttempt stWit { linkUp := true, request := .ok pollRespNoPower }
      = .error (.KeyError "power", stWit)
    ∧ retryable (.KeyError "power") = false
    ∧ handlePollError (.KeyError "power") = .exitProcess 1 := by
  decide

/-- C9. When no plant id is configured (none stored, none passed), a
successful login stores the plantId of the first entry of the response
plant list into plant_id and the cookie from the set-cookie header, and
the poll URL built from that session contains plantId=<that id> as a
substring; when a plant id is passed explicitly, that value is stored
instead, whatever the response plant list holds. -/
theorem login_plant_id_resolution
    (st : ApiState) (envs : Nat → LoginEnv) (resp : LoginResponse)
    (content back sv user uidJ rlJ lst entry : Json) (pid ck : String)
    (hpid : st.plant_id = none)
    (henv : envs 1 = { linkUp := true, request := .ok resp })
    (hbody : resp.body = .ok content)
    (hback : pyGetItem content "back" = .ok back)
    (hsv : pyGetItem back "success" = .ok sv)
    (htrue : pyTruthy sv = true)
    (huser : pyGetItem back "user" = .ok user)
    (hid : pyGetItem user "id" = .ok uidJ)
    (hrl : pyGetItem user "rightlevel" = .ok rlJ)
    (hlst : pyGetItem back "data" = .ok lst)
    (hentry : pyIndex lst 0 = .ok entry)
    (hpl : pyGetItem entry "plantId" = .ok (.str pid))
    (hck : resp.setCookie = some ck) :
    login st none envs
      = (.ok { st with plant_id := some pid, cookies := some ck }, [PolicyAct.attempt 1])
    ∧ (∃ pre post,
        pollUrl { st with plant_id := some pid, cookies := some ck }
          = pre ++ ("plantId=" ++ pid) ++ post)
    ∧ (∀ p, login st (some p) envs
        = (.ok { st with plant_id := some p, cookies := some ck }, [PolicyAct.attempt 1])) := by
  refine ⟨?_, ?_, ?_⟩
  · have hatt : loginAttempt st (envs 1)
        = .ok { st with plant_id := some pid, cookies := some ck } := by
      rw [henv]
      unfold loginAttempt afterAuth setCookieStep
      simp [hbody, hback, hsv, htrue, huser, hid, hrl, hpid, hlst, hentry, hpl, hck,
        jsonToPlantId]
    show loginLoop envs (applyPlantArg st none) 1 (1 + 1) = _
    rw [show applyPlantArg st none = st from rfl, loginLoop_step, hatt]
  · refine ⟨"https://server-api.growatt.com/newTwoPlantAPI.do?op=getAllDeviceList&",
      "&pageNum=1&pageSize=1", ?_⟩
    apply String.ext
    simp [pollUrl, get_url, server_url, pyStrOpt, String.data_append]
  · intro p
    have hatt : loginAttempt (applyPlantArg st (some p)) (envs 1)
        = .ok { st with plant_id := some p, cookies := some ck } := by
      rw [henv]
      unfold loginAttempt afterAuth setCookieStep applyPlantArg
      simp [hbody, hback, hsv, htrue, huser, hid, hrl, hck]
    show loginLoop envs (applyPlantArg st (some p)) 1 (1 + 1) = _
    rw [loginLoop_step, hatt]

def loginBackOk : Json :=
  Json.obj [("success", Json.bool true),
    ("user", Json.obj [("id", Json.num 7), ("rightlevel", Json.num 1)]),
    ("data", Json.arr [Json.obj [("plantId", Json.str "PLANT123")]])]

def loginRespOk : LoginResponse :=
  { body := .ok (Json.obj [("back", loginBackOk)]),
    setCookie := some "JSESSIONID=abc" }

theorem login_plant_id_resolution_wit :
    (stNone.plant_id = none ∧ pyTruthy (Json.bool true) = true
      ∧ loginRespOk.setCookie = some "JSESSIONID=abc")
    ∧ (login stNone none (fun _ => { linkUp := true, request := .ok loginRespOk })
        = (.ok { stNone with plant_id := some "PLANT123", cookies := some "JSESSIONID=abc" },
           [PolicyAct.attempt 1])
      ∧ (∃ pre post,
          pollUrl { stNone with plant_id := some "PLANT123", cookies := some "JSESSIONID=abc" }
            = pre ++ ("plantId=" ++ "PLANT123") ++ post)
      ∧ (∀ p, login stNone (some p) (fun _ => { linkUp := true, request := .ok loginRespOk })
          = (.ok { stNone with plant_id := some p, cookies := some "JSESSIONID=abc" },
             [PolicyAct.attempt 1]))) :=
  ⟨⟨rfl, by decide, rfl⟩,
   login_plant_id_resolution stNone _ loginRespOk
     (Json.obj [("back", loginBackOk)]) loginBackOk (Json.bool true)
     (Json.obj [("id", Json.num 7), ("rightlevel", Json.num 1)])
     (Json.num 7) (Json.num 1)
     (Json.arr [Json.obj [("plantId", Json.str "PLANT123")]])
     (Json.obj [("plantId", Json.str "PLANT123")])
     "PLANT123" "JSESSIONID=abc"
     rfl rfl rfl rfl rfl (by decide) rfl rfl rfl rfl rfl rfl rfl⟩
